import Mathlib

/-!
Shallow embedding of the ribosome wire-encoding core of this repository:
`core_types/src/error/ribosome_error.rs` (return-code encoding) and
`wasm_utils/src/memory/allocation.rs` (checked memory descriptor).

Machine integers are modelled as `Nat` with explicit `% 2 ^ w` where the
source truncates: `RibosomeEncodingBits` is `u32` (values `< 2 ^ 32`),
`RibosomeCodeBits` is `u16` (values `< 2 ^ 16`).  The fallible
`from_code_int` (which panics via `unreachable` on input `0`) is embedded
as an `Option`-returning function, `none` standing for the panic.
-/

deriving instance DecidableEq for Except

namespace RibosomeSpec

/-- Splits a `u32` into its upper and lower 16-bit halves, embedding
`u32_split_bits` from the `bits_n_pieces` crate:
`((bits >> 16) as u16, bits as u16)`. -/
def u32_split_bits (i : Nat) : Nat × Nat :=
  (i / 2 ^ 16 % 2 ^ 16, i % 2 ^ 16)

/-- The closed set of error codes, `enum RibosomeErrorCode` in
`ribosome_error.rs`. -/
inductive RibosomeErrorCode
  | Unspecified
  | ArgumentDeserializationFailed
  | OutOfMemory
  | ReceivedWrongActionResult
  | CallbackFailed
  | RecursiveCallForbidden
  | ResponseSerializationFailed
  | NotAnAllocation
  | ZeroSizedAllocation
  | UnknownEntryType
deriving DecidableEq

/-- The `repr(u32)` discriminant value of each error code, as declared
in the source: ordinal shifted left by 16 bits. -/
def RibosomeErrorCode.code : RibosomeErrorCode → Nat
  | .Unspecified => 1 * 2 ^ 16
  | .ArgumentDeserializationFailed => 2 * 2 ^ 16
  | .OutOfMemory => 3 * 2 ^ 16
  | .ReceivedWrongActionResult => 4 * 2 ^ 16
  | .CallbackFailed => 5 * 2 ^ 16
  | .RecursiveCallForbidden => 6 * 2 ^ 16
  | .ResponseSerializationFailed => 7 * 2 ^ 16
  | .NotAnAllocation => 8 * 2 ^ 16
  | .ZeroSizedAllocation => 9 * 2 ^ 16
  | .UnknownEntryType => 10 * 2 ^ 16

/-- Wrapper around a raw `u32`, `struct RibosomeEncodedAllocation(u32)`. -/
structure RibosomeEncodedAllocation where
  bits : Nat
deriving DecidableEq

/-- The conversion `impl From<RibosomeEncodingBits> for
RibosomeEncodedAllocation` (lines 23-27 of the source): wraps any raw
word, with no check on it. -/
def ribosomeEncodedAllocationOfBits (i : Nat) : RibosomeEncodedAllocation :=
  ⟨i⟩

/-- The tagged outcome, `enum RibosomeReturnCode`. -/
inductive RibosomeReturnCode
  | Success
  | Allocation (allocation : RibosomeEncodedAllocation)
  | Failure (code : RibosomeErrorCode)
deriving DecidableEq

/-- Encoding, `impl From<RibosomeReturnCode> for RibosomeEncodingBits`:
`Success` is the zero word, an allocation contributes its raw wrapped
word, and a failure contributes the error code discriminant (the
`u32 -> i32 -> u32` casts in the source are value-preserving since every
discriminant is below `2 ^ 31`). -/
def encodingBitsOfReturnCode : RibosomeReturnCode → Nat
  | .Success => 0
  | .Allocation allocation => allocation.bits
  | .Failure code => code.code

/-- `RibosomeErrorCode::from_code_int`: the `0 => unreachable` panic arm
is embedded as `none`; the catch-all `1 | _` arm yields `Unspecified`. -/
def RibosomeErrorCode.from_code_int (code : Nat) : Option RibosomeErrorCode :=
  if code = 0 then none
  else if code = 2 then some .ArgumentDeserializationFailed
  else if code = 3 then some .OutOfMemory
  else if code = 4 then some .ReceivedWrongActionResult
  else if code = 5 then some .CallbackFailed
  else if code = 6 then some .RecursiveCallForbidden
  else if code = 7 then some .ResponseSerializationFailed
  else if code = 8 then some .NotAnAllocation
  else if code = 9 then some .ZeroSizedAllocation
  else if code = 10 then some .UnknownEntryType
  else some .Unspecified

/-- Decoding, `impl From<RibosomeEncodingBits> for RibosomeReturnCode`:
zero means `Success`; otherwise the word is split into halves, a zero
lower half means `Failure` of the code read from the upper half, and a
nonzero lower half means `Allocation` wrapping the whole word.  The
`Option` propagates the (never reached, see below) panic of
`from_code_int`. -/
def returnCodeOfEncodingBits (i : Nat) : Option RibosomeReturnCode :=
  if i = 0 then some .Success
  else
    let code_int := (u32_split_bits i).1
    let maybe_allocation_length := (u32_split_bits i).2
    if maybe_allocation_length = 0 then
      (RibosomeErrorCode.from_code_int code_int).map RibosomeReturnCode.Failure
    else
      some (.Allocation ⟨i⟩)

/-- Modelled from the spec: the generic host error type is an external
collaborator whose definition is not among the shown sources; only the
variants constructed by this core are modelled — the generic string
error and the wrapper around a ribosome error code. -/
inductive HolochainError
  | ErrorGeneric (s : String)
  | Ribosome (code : RibosomeErrorCode)
deriving DecidableEq

/-- `RibosomeErrorCode::as_str`: the fixed human-readable label. -/
def RibosomeErrorCode.as_str : RibosomeErrorCode → String
  | .Unspecified => "Unspecified"
  | .ArgumentDeserializationFailed => "Argument deserialization failed"
  | .OutOfMemory => "Out of memory"
  | .ReceivedWrongActionResult => "Received wrong action result"
  | .CallbackFailed => "Callback failed"
  | .RecursiveCallForbidden => "Recursive call forbidden"
  | .ResponseSerializationFailed => "Response serialization failed"
  | .NotAnAllocation => "Not an allocation"
  | .ZeroSizedAllocation => "Zero-sized allocation"
  | .UnknownEntryType => "Unknown entry type"

/-- `impl FromStr for RibosomeErrorCode`: exact-match on the ten labels,
anything else is the generic unknown-code error. -/
def RibosomeErrorCode.from_str (s : String) : Except HolochainError RibosomeErrorCode :=
  if s = "Unspecified" then .ok .Unspecified
  else if s = "Argument deserialization failed" then .ok .ArgumentDeserializationFailed
  else if s = "Out of memory" then .ok .OutOfMemory
  else if s = "Received wrong action result" then .ok .ReceivedWrongActionResult
  else if s = "Callback failed" then .ok .CallbackFailed
  else if s = "Recursive call forbidden" then .ok .RecursiveCallForbidden
  else if s = "Response serialization failed" then .ok .ResponseSerializationFailed
  else if s = "Not an allocation" then .ok .NotAnAllocation
  else if s = "Zero-sized allocation" then .ok .ZeroSizedAllocation
  else if s = "Unknown entry type" then .ok .UnknownEntryType
  else .error (.ErrorGeneric "Unknown RibosomeErrorCode")

/-- `impl ToString for RibosomeReturnCode`: `Success` displays as the
literal string, an allocation displays as the decimal form of its raw
`u32` (via `impl ToString for RibosomeEncodedAllocation`), a failure
displays as its error code label. -/
def RibosomeReturnCode.to_string : RibosomeReturnCode → String
  | .Success => "Success"
  | .Allocation allocation => Nat.repr allocation.bits
  | .Failure code => code.as_str

/-- `impl FromStr for RibosomeReturnCode`: the literal `"Success"` parses
to `Success`; anything else is delegated to the error code parser, whose
error propagates. -/
def RibosomeReturnCode.from_str (s : String) : Except HolochainError RibosomeReturnCode :=
  if s = "Success" then .ok .Success
  else (RibosomeErrorCode.from_str s).map RibosomeReturnCode.Failure

/-- `RibosomeReturnCode::allocation_or_err`: asks the outcome for its
allocation; a `Success` word is reported as `ZeroSizedAllocation`, and a
`Failure` reports its own wrapped code.  The source takes the receiver
by shared reference and clones, so the receiver itself is unchanged; the
embedding is pure, which makes that immutability intrinsic. -/
def RibosomeReturnCode.allocation_or_err :
    RibosomeReturnCode → Except HolochainError RibosomeEncodedAllocation
  | .Allocation allocation => .ok allocation
  | .Success => .error (.Ribosome .ZeroSizedAllocation)
  | .Failure code => .error (.Ribosome code)

/-- `enum AllocationError` from `allocation.rs`. -/
inductive AllocationError
  | OutOfBounds
  | ZeroLength
  | BadStackAlignment
  | Serialization
deriving DecidableEq

/-- The validated memory descriptor, `struct WasmAllocation` with its
`offset()`/`length()` read-only projections as fields.  `MemoryInt`
values are 16-bit magnitudes (`< 2 ^ 16`). -/
structure WasmAllocation where
  offset : Nat
  length : Nat
deriving DecidableEq

/-- Modelled from the spec: `MEMORY_INT_MAX` lives in the memory module
that is not among the shown sources; per the spec it is the largest
address-width value expressed in the wider intermediate domain, with the
address width being the 16-bit half of the wire word. -/
def MEMORY_INT_MAX : Nat := 2 ^ 16 - 1

/-- `WasmAllocation::max()`: the published maximum, as `MemoryBits`. -/
def WasmAllocation.max : Nat := MEMORY_INT_MAX

/-- `WasmAllocation::new`: the overflow check runs first in the wider
domain (`Nat` addition is exact, as is the `MemoryBits` addition in the
source, since both summands are below `2 ^ 16` and the wide domain holds
`2 ^ 32` values), then the zero-length check, then success. -/
def WasmAllocation.new (offset length : Nat) : Except AllocationError WasmAllocation :=
  if offset + length > WasmAllocation.max then .error .OutOfBounds
  else if length = 0 then .error .ZeroLength
  else .ok ⟨offset, length⟩

/-- Modelled from the spec: the packed raw encoding of a validated
region — upper half offset, lower half length — produced by the
conversion from `WasmAllocation` to `RibosomeEncodedAllocation`, which
lives outside the shown sources; decode step 4 of the spec describes it
as the same high/low split read as offset/length. -/
def WasmAllocation.encodeBits (a : WasmAllocation) : Nat :=
  a.offset * 2 ^ 16 + a.length

/-! Helper lemmas shared by several theorems: totality of
`from_code_int` away from zero, the value table on recognized codes, and
the two branches of the decoder. -/

theorem from_code_int_isSome (c : Nat) (h : c ≠ 0) :
    ∃ e, RibosomeErrorCode.from_code_int c = some e := by
  unfold RibosomeErrorCode.from_code_int
  rw [if_neg h]
  repeat' split
  all_goals exact ⟨_, rfl⟩

theorem from_code_int_code (k : Nat) (h1 : 1 ≤ k) (h2 : k ≤ 10) :
    ∃ c, RibosomeErrorCode.from_code_int k = some c ∧
      RibosomeErrorCode.code c = k * 2 ^ 16 := by
  interval_cases k <;> exact ⟨_, rfl, rfl⟩

theorem decode_of_lower_zero (w : Nat) (h0 : w ≠ 0) (hl : w % 2 ^ 16 = 0) :
    returnCodeOfEncodingBits w =
      (RibosomeErrorCode.from_code_int (w / 2 ^ 16 % 2 ^ 16)).map
        RibosomeReturnCode.Failure := by
  simp only [returnCodeOfEncodingBits, u32_split_bits]
  rw [if_neg h0, if_pos hl]

theorem decode_of_lower_nonzero (w : Nat) (hl : w % 2 ^ 16 ≠ 0) :
    returnCodeOfEncodingBits w = some (.Allocation ⟨w⟩) := by
  have h0 : w ≠ 0 := by omega
  simp only [returnCodeOfEncodingBits, u32_split_bits]
  rw [if_neg h0, if_neg hl]

/-- C1 fails as stated: `Allocation (RibosomeEncodedAllocation 0)` is a
constructible outcome (the raw `From<u32>` conversion wraps any word),
yet decoding its encoding yields `Success`, not the allocation back. -/
theorem c1_counterexample :
    returnCodeOfEncodingBits (encodingBitsOfReturnCode
        (.Allocation (ribosomeEncodedAllocationOfBits 0))) ≠
      some (.Allocation (ribosomeEncodedAllocationOfBits 0)) := by
  decide

/-- C1 (amended): `decode (encode x) = x` for every outcome `x` whose
allocation payload, if any, wraps a word with nonzero lower 16-bit half;
the unrestricted claim fails on allocations wrapping a word with zero
lower half, which the raw `From<u32>` conversion permits. -/
theorem c1_decode_encode_roundtrip (x : RibosomeReturnCode)
    (h : ∀ a, x = .Allocation a → a.bits % 2 ^ 16 ≠ 0) :
    returnCodeOfEncodingBits (encodingBitsOfReturnCode x) = some x := by
  cases x with
  | Success => rfl
  | Failure c => cases c <;> rfl
  | Allocation a =>
      obtain ⟨b⟩ := a
      exact decode_of_lower_nonzero b (h ⟨b⟩ rfl)

theorem c1_witness :
    returnCodeOfEncodingBits (encodingBitsOfReturnCode .Success) =
      some .Success :=
  c1_decode_encode_roundtrip .Success (by intro a ha; simp at ha)

/-- C2 fails as stated: the word `720896 = 11 <<< 16` (lower half zero,
upper half an unknown code) decodes to `Failure Unspecified`, which
re-encodes to `65536`, not the original bits. -/
theorem c2_counterexample :
    720896 < 2 ^ 32 ∧
      Option.map encodingBitsOfReturnCode (returnCodeOfEncodingBits 720896) ≠
        some 720896 := by
  decide

/-- C2 (amended): `encode (decode w) = w` for every 32-bit word `w`
whose lower half is nonzero or whose upper half is at most `10`; words
with lower half zero and an unrecognized upper half collapse to
`Unspecified` on decode, so their bits are not reproduced. -/
theorem c2_encode_decode_roundtrip (w : Nat) (hw : w < 2 ^ 32)
    (h : w % 2 ^ 16 ≠ 0 ∨ w / 2 ^ 16 ≤ 10) :
    Option.map encodingBitsOfReturnCode (returnCodeOfEncodingBits w) = some w := by
  by_cases h0 : w = 0
  · subst h0; rfl
  by_cases hl : w % 2 ^ 16 = 0
  · have hk1 : 1 ≤ w / 2 ^ 16 := by omega
    have hk10 : w / 2 ^ 16 ≤ 10 := by
      rcases h with h | h
      · exact absurd hl h
      · exact h
    obtain ⟨c, hc, hcode⟩ := from_code_int_code (w / 2 ^ 16) hk1 hk10
    have hmod : w / 2 ^ 16 % 2 ^ 16 = w / 2 ^ 16 := Nat.mod_eq_of_lt (by omega)
    rw [decode_of_lower_zero w h0 hl, hmod, hc]
    show some (RibosomeErrorCode.code c) = some w
    rw [hcode]
    congr 1
    omega
  · rw [decode_of_lower_nonzero w hl]
    rfl

theorem c2_witness :
    Option.map encodingBitsOfReturnCode (returnCodeOfEncodingBits 65536) =
      some 65536 :=
  c2_encode_decode_roundtrip 65536 (by decide) (by decide)

/-- C3: decoding is total over the 32-bit words: every word decodes to
exactly one outcome — zero to `Success`, nonzero with zero lower half to
a `Failure` (with `from_code_int` returning a value, so its panic arm is
never reached from decode), nonzero lower half to an `Allocation`
wrapping the whole word. -/
theorem c3_decode_total (w : Nat) (hw : w < 2 ^ 32) :
    (returnCodeOfEncodingBits w).isSome = true ∧
    (w = 0 → returnCodeOfEncodingBits w = some .Success) ∧
    (w ≠ 0 → w % 2 ^ 16 = 0 →
      ∃ c, RibosomeErrorCode.from_code_int (w / 2 ^ 16 % 2 ^ 16) = some c ∧
        returnCodeOfEncodingBits w = some (.Failure c)) ∧
    (w % 2 ^ 16 ≠ 0 →
      returnCodeOfEncodingBits w = some (.Allocation (ribosomeEncodedAllocationOfBits w))) := by
  by_cases h0 : w = 0
  · subst h0
    exact ⟨rfl, fun _ => rfl, fun h _ => absurd rfl h,
      fun h => absurd (by decide) h⟩
  · by_cases hl : w % 2 ^ 16 = 0
    · have hmod : w / 2 ^ 16 % 2 ^ 16 = w / 2 ^ 16 := Nat.mod_eq_of_lt (by omega)
      obtain ⟨c, hc⟩ := from_code_int_isSome (w / 2 ^ 16) (by omega)
      have hdec : returnCodeOfEncodingBits w = some (.Failure c) := by
        rw [decode_of_lower_zero w h0 hl, hmod, hc]
        rfl
      exact ⟨by rw [hdec]; rfl, fun h => absurd h h0,
        fun _ _ => ⟨c, by rw [hmod]; exact hc, hdec⟩, fun h => absurd hl h⟩
    · have hdec := decode_of_lower_nonzero w hl
      exact ⟨by rw [hdec]; rfl, fun h => absurd h h0, fun _ h => absurd h hl,
        fun _ => hdec⟩

theorem c3_witness :
    returnCodeOfEncodingBits 65537 =
      some (.Allocation (ribosomeEncodedAllocationOfBits 65537)) :=
  (c3_decode_total 65537 (by decide)).2.2.2 (by decide)

/-- C4: a word with lower half zero and a nonzero upper half outside
`1..=10` decodes to `Failure Unspecified` — the unknown code degrades to
the fallback rather than making decoding fail. -/
theorem c4_unknown_code_decodes_unspecified (w : Nat) (hw : w < 2 ^ 32)
    (hl : w % 2 ^ 16 = 0) (h0 : w ≠ 0)
    (hout : ¬(1 ≤ w / 2 ^ 16 ∧ w / 2 ^ 16 ≤ 10)) :
    returnCodeOfEncodingBits w = some (.Failure .Unspecified) := by
  have h11 : 11 ≤ w / 2 ^ 16 := by omega
  have hmod : w / 2 ^ 16 % 2 ^ 16 = w / 2 ^ 16 := Nat.mod_eq_of_lt (by omega)
  have hfc : RibosomeErrorCode.from_code_int (w / 2 ^ 16) = some .Unspecified := by
    unfold RibosomeErrorCode.from_code_int
    repeat rw [if_neg (by omega)]
  rw [decode_of_lower_zero w h0 hl, hmod, hfc]
  rfl

theorem c4_witness :
    returnCodeOfEncodingBits 720896 = some (.Failure .Unspecified) :=
  c4_unknown_code_decodes_unspecified 720896 (by decide) (by decide)
    (by decide) (by decide)

/-- C5: `WasmAllocation::new` fails with `OutOfBounds` exactly when the
wide-domain sum of offset and length exceeds the published maximum (this
check runs first, even when the length is also zero), otherwise fails
with `ZeroLength` exactly when the length is zero, and otherwise
succeeds with a region reporting exactly the offset and length passed
in; in particular `new (max - 1) 2` is out of bounds while
`new (max - 2) 2` succeeds. -/
theorem c5_wasm_allocation_new_spec (offset length : Nat)
    (ho : offset < 2 ^ 16) (hlen : length < 2 ^ 16) :
    (WasmAllocation.new offset length = .error .OutOfBounds ↔
      offset + length > MEMORY_INT_MAX) ∧
    (offset + length ≤ MEMORY_INT_MAX →
      (WasmAllocation.new offset length = .error .ZeroLength ↔ length = 0)) ∧
    (offset + length ≤ MEMORY_INT_MAX → length ≠ 0 →
      WasmAllocation.new offset length = .ok ⟨offset, length⟩ ∧
      (WasmAllocation.mk offset length).offset = offset ∧
      (WasmAllocation.mk offset length).length = length) ∧
    WasmAllocation.new (MEMORY_INT_MAX - 1) 2 = .error .OutOfBounds ∧
    WasmAllocation.new (MEMORY_INT_MAX - 2) 2 = .ok ⟨MEMORY_INT_MAX - 2, 2⟩ := by
  by_cases hb : offset + length > MEMORY_INT_MAX
  · have hnew : WasmAllocation.new offset length = .error .OutOfBounds := by
      unfold WasmAllocation.new WasmAllocation.max
      rw [if_pos hb]
    exact ⟨⟨fun _ => hb, fun _ => hnew⟩, fun hle => absurd hb (by omega),
      fun hle _ => absurd hb (by omega), by decide, by decide⟩
  · by_cases hz : length = 0
    · have hnew : WasmAllocation.new offset length = .error .ZeroLength := by
        unfold WasmAllocation.new WasmAllocation.max
        rw [if_neg hb, if_pos hz]
      refine ⟨⟨fun he => ?_, fun hgt => absurd hgt hb⟩,
        fun _ => ⟨fun _ => hz, fun _ => hnew⟩,
        fun _ hnz => absurd hz hnz, by decide, by decide⟩
      rw [hnew] at he
      exact absurd he (by decide)
    · have hnew : WasmAllocation.new offset length = .ok ⟨offset, length⟩ := by
        unfold WasmAllocation.new WasmAllocation.max
        rw [if_neg hb, if_neg hz]
      refine ⟨⟨fun he => ?_, fun hgt => absurd hgt hb⟩,
        fun _ => ⟨fun he => ?_, fun h => absurd h hz⟩,
        fun _ _ => ⟨hnew, rfl, rfl⟩, by decide, by decide⟩
      · rw [hnew] at he
        exact Except.noConfusion he
      · rw [hnew] at he
        exact Except.noConfusion he

theorem c5_witness :
    WasmAllocation.new 100 50 = .ok ⟨100, 50⟩ ∧
    (WasmAllocation.mk 100 50).offset = 100 ∧
    (WasmAllocation.mk 100 50).length = 50 :=
  (c5_wasm_allocation_new_spec 100 50 (by decide) (by decide)).2.2.1
    (by decide) (by decide)

/-- C6 fails as stated: the raw conversion from bits (lines 23-27 of the
source) wraps any word unchecked, so `Allocation` of the wrapped word
`0` is a constructible outcome whose encoding has lower half zero, and
the constructible outcome wrapping `65536` even decodes as an error
code. -/
theorem c6_counterexample :
    encodingBitsOfReturnCode
        (.Allocation (ribosomeEncodedAllocationOfBits 0)) % 2 ^ 16 = 0 ∧
      returnCodeOfEncodingBits (encodingBitsOfReturnCode
          (.Allocation (ribosomeEncodedAllocationOfBits 65536))) =
        some (.Failure .Unspecified) := by
  decide

/-- C6 (amended): every allocation outcome produced by the decoder wraps
a word with nonzero lower half, and the (spec-modelled) packed encoding
of a region validated by `WasmAllocation::new` has nonzero lower half,
so such words are never read back as error codes; the guarantee does not
extend to every constructible allocation value, because the raw
conversion from bits is an unchecked construction path. -/
theorem c6_allocation_disambiguation :
    (∀ w a, returnCodeOfEncodingBits w = some (.Allocation a) →
      a.bits % 2 ^ 16 ≠ 0) ∧
    ∀ offset length a, length < 2 ^ 16 →
      WasmAllocation.new offset length = .ok a →
      WasmAllocation.encodeBits a % 2 ^ 16 ≠ 0 := by
  constructor
  · intro w a hdec
    by_cases h0 : w = 0
    · subst h0
      exact absurd hdec (by simp [returnCodeOfEncodingBits])
    · by_cases hl : w % 2 ^ 16 = 0
      · rw [decode_of_lower_zero w h0 hl] at hdec
        rcases hx : RibosomeErrorCode.from_code_int (w / 2 ^ 16 % 2 ^ 16) with _ | c
        · rw [hx] at hdec
          exact absurd hdec (by simp)
        · rw [hx] at hdec
          exact absurd hdec (by simp)
      · rw [decode_of_lower_nonzero w hl] at hdec
        simp only [Option.some.injEq, RibosomeReturnCode.Allocation.injEq] at hdec
        rw [← hdec]
        exact hl
  · intro offset length a hlen hnew
    unfold WasmAllocation.new at hnew
    by_cases hb : offset + length > WasmAllocation.max
    · rw [if_pos hb] at hnew
      exact absurd hnew (by simp)
    · rw [if_neg hb] at hnew
      by_cases hz : length = 0
      · rw [if_pos hz] at hnew
        exact absurd hnew (by simp)
      · rw [if_neg hz] at hnew
        injection hnew with h1
        subst h1
        show (offset * 2 ^ 16 + length) % 2 ^ 16 ≠ 0
        omega

theorem c6_witness :
    (ribosomeEncodedAllocationOfBits 65537).bits % 2 ^ 16 ≠ 0 :=
  c6_allocation_disambiguation.1 65537 (ribosomeEncodedAllocationOfBits 65537)
    (by decide)

/-- C7: `from_code_int` at numeric value `0` hits the unreachable-panic
arm and returns no value; for any nonzero 16-bit code it always returns
a value. -/
theorem c7_from_code_int_zero_panics :
    RibosomeErrorCode.from_code_int 0 = none ∧
    ∀ c, c < 2 ^ 16 → c ≠ 0 →
      (RibosomeErrorCode.from_code_int c).isSome = true := by
  refine ⟨rfl, fun c hc h0 => ?_⟩
  obtain ⟨e, he⟩ := from_code_int_isSome c h0
  rw [he]
  rfl

theorem c7_witness :
    (RibosomeErrorCode.from_code_int 5).isSome = true :=
  c7_from_code_int_zero_panics.2 5 (by decide) (by decide)

/-! Shared helper: the string parser on a string that matches no label. -/

theorem from_str_of_no_label (s : String)
    (h : ∀ c, s ≠ RibosomeErrorCode.as_str c) :
    RibosomeErrorCode.from_str s =
      .error (.ErrorGeneric "Unknown RibosomeErrorCode") := by
  have h1 : s ≠ "Unspecified" := h .Unspecified
  have h2 : s ≠ "Argument deserialization failed" := h .ArgumentDeserializationFailed
  have h3 : s ≠ "Out of memory" := h .OutOfMemory
  have h4 : s ≠ "Received wrong action result" := h .ReceivedWrongActionResult
  have h5 : s ≠ "Callback failed" := h .CallbackFailed
  have h6 : s ≠ "Recursive call forbidden" := h .RecursiveCallForbidden
  have h7 : s ≠ "Response serialization failed" := h .ResponseSerializationFailed
  have h8 : s ≠ "Not an allocation" := h .NotAnAllocation
  have h9 : s ≠ "Zero-sized allocation" := h .ZeroSizedAllocation
  have h10 : s ≠ "Unknown entry type" := h .UnknownEntryType
  unfold RibosomeErrorCode.from_str
  rw [if_neg h1, if_neg h2, if_neg h3, if_neg h4, if_neg h5, if_neg h6,
    if_neg h7, if_neg h8, if_neg h9, if_neg h10]

/-- C8: parsing a code's fixed label returns exactly that code, and
parsing any string that is none of the ten labels fails with the generic
unknown-code error. -/
theorem c8_error_code_label_roundtrip :
    (∀ c, RibosomeErrorCode.from_str (RibosomeErrorCode.as_str c) = .ok c) ∧
    ∀ s, (∀ c, s ≠ RibosomeErrorCode.as_str c) →
      RibosomeErrorCode.from_str s =
        .error (.ErrorGeneric "Unknown RibosomeErrorCode") := by
  refine ⟨fun c => ?_, from_str_of_no_label⟩
  cases c <;> rfl

theorem c8_witness :
    RibosomeErrorCode.from_str "nope" =
      .error (.ErrorGeneric "Unknown RibosomeErrorCode") :=
  c8_error_code_label_roundtrip.2 "nope" (by intro c; cases c <;> decide)

/-- C9 fails as stated: the display string of an allocation outcome is
the decimal form of its raw word, which the outcome parser rejects with
the generic unknown-code error instead of returning the outcome. -/
theorem c9_counterexample :
    RibosomeReturnCode.from_str (RibosomeReturnCode.to_string
        (.Allocation (ribosomeEncodedAllocationOfBits 65537))) ≠
      .ok (.Allocation (ribosomeEncodedAllocationOfBits 65537)) := by
  decide

/-- C9 (amended): the display/parse round trip holds for `Success` and
for every `Failure`, and parsing an unrecognized label fails with the
generic unknown-code error; it does not hold for allocation outcomes,
whose display string the parser rejects. -/
theorem c9_display_parse_roundtrip :
    RibosomeReturnCode.from_str (RibosomeReturnCode.to_string .Success) =
        .ok .Success ∧
    (∀ c, RibosomeReturnCode.from_str
        (RibosomeReturnCode.to_string (.Failure c)) = .ok (.Failure c)) ∧
    ∀ s, s ≠ "Success" → (∀ c, s ≠ RibosomeErrorCode.as_str c) →
      RibosomeReturnCode.from_str s =
        .error (.ErrorGeneric "Unknown RibosomeErrorCode") := by
  refine ⟨rfl, fun c => ?_, fun s hs h => ?_⟩
  · cases c <;> rfl
  · unfold RibosomeReturnCode.from_str
    rw [if_neg hs, from_str_of_no_label s h]
    rfl

theorem c9_witness :
    RibosomeReturnCode.from_str "bogus" =
      .error (.ErrorGeneric "Unknown RibosomeErrorCode") :=
  c9_display_parse_roundtrip.2.2 "bogus" (by decide)
    (by intro c; cases c <;> decide)

/-- C10: `allocation_or_err` returns the wrapped allocation on an
allocation outcome, reports a `Success` as a `ZeroSizedAllocation`
error, and reports a `Failure` as exactly its own wrapped code; the
report for `Success` is the very value produced for a genuine
guest-reported zero-sized-allocation failure, so the two are not
distinguished.  The receiver is read only, so the value is unchanged. -/
theorem c10_allocation_or_err_spec (x : RibosomeReturnCode) :
    (∀ a, x = .Allocation a → x.allocation_or_err = .ok a) ∧
    (x = .Success →
      x.allocation_or_err = .error (.Ribosome .ZeroSizedAllocation)) ∧
    (∀ c, x = .Failure c → x.allocation_or_err = .error (.Ribosome c)) ∧
    RibosomeReturnCode.Success.allocation_or_err =
      (RibosomeReturnCode.Failure .ZeroSizedAllocation).allocation_or_err := by
  refine ⟨fun a ha => ?_, fun hs => ?_, fun c hc => ?_, rfl⟩
  · subst ha
    rfl
  · subst hs
    rfl
  · subst hc
    rfl

theorem c10_witness :
    RibosomeReturnCode.Success.allocation_or_err =
      .error (.Ribosome .ZeroSizedAllocation) :=
  (c10_allocation_or_err_spec .Success).2.1 rfl

end RibosomeSpec
